import Mathlib

/-!
Verification of the bactopia-py rank-classification and report-aggregation
subsystem: a shallow embedding of `bactopia/summary.py` (the rank classifier),
`bactopia/parsers/parsables.py` (the per-sample completeness scanner),
`bactopia/parsers/qc.py` (the QC parser and its mate-pair merge) and the
pre-flight / per-sample driver logic of `bactopia/cli/summary.py`.

Python floats are modelled as exact rationals, Python ints as `Int`,
filesystem existence as a predicate `String → Bool`, and fallible code as
`Option`-valued functions.
-/

namespace Bactopia

/-! ### Generic helpers: Python-style rounding, number formatting, strings -/

/-- Python `round()` to the nearest integer, ties to even (banker's rounding). -/
def pyRound (q : ℚ) : ℤ :=
  let f : ℤ := ⌊q⌋
  let frac : ℚ := q - f
  if frac < 1/2 then f
  else if 1/2 < frac then f + 1
  else if 2 ∣ f then f else f + 1

/-- Python `float(f"{x:.2f}")`: round to 2 decimal places. -/
def round2 (q : ℚ) : ℚ := (pyRound (q * 100) : ℚ) / 100

/-- Decimal digits of a natural number, padded on the left with zeros to width `w`. -/
def padNat (w : ℕ) (n : ℕ) : String :=
  let s := toString n
  let rec padLoop : ℕ → String → String
    | 0, acc => acc
    | k + 1, acc => padLoop k ("0" ++ acc)
  padLoop (w - s.length) s

/-- Python `f"{q:.2f}"`: fixed-point rendering with 2 decimal places. -/
def fmt2 (q : ℚ) : String :=
  let n : ℤ := pyRound (q * 100)
  (if n < 0 then "-" else "") ++ toString (n.natAbs / 100) ++ "." ++ padNat 2 (n.natAbs % 100)

/-- Python `f"{q:.4f}"`: fixed-point rendering with 4 decimal places. -/
def fmt4 (q : ℚ) : String :=
  let n : ℤ := pyRound (q * 10000)
  (if n < 0 then "-" else "") ++ toString (n.natAbs / 10000) ++ "." ++ padNat 4 (n.natAbs % 10000)

/-- Python `str()` of a numeric cutoff value (integral values print without a denominator). -/
def ratStr (q : ℚ) : String :=
  if q.den = 1 then toString q.num else toString q.num ++ "/" ++ toString q.den

/-- Whether the pattern `p` occurs at the head of `l`. -/
def matchAt : List Char → List Char → Bool
  | [], _ => true
  | _ :: _, [] => false
  | p :: ps, c :: cs => p == c && matchAt ps cs

/-- Whether the pattern occurs anywhere in the list. -/
def hasSub (pat : List Char) : List Char → Bool
  | [] => matchAt pat []
  | c :: cs => matchAt pat (c :: cs) || hasSub pat cs

/-- Python `pat in s` (substring containment). -/
def strContains (s pat : String) : Bool := hasSub pat.data s.data

/-- Replace all (leftmost, non-overlapping) occurrences of `pat`, fuel-bounded. -/
def replList (pat rep : List Char) : ℕ → List Char → List Char
  | _, [] => []
  | 0, l => l
  | fuel + 1, c :: cs =>
    if matchAt pat (c :: cs) then rep ++ replList pat rep fuel ((c :: cs).drop pat.length)
    else c :: replList pat rep fuel cs

/-- Python `s.replace(pat, rep)` for a non-empty pattern. -/
def strReplace (s pat rep : String) : String :=
  ⟨replList pat.data rep.data s.data.length s.data⟩

/-- Code-point lexicographic comparison of character lists. -/
def charsLe : List Char → List Char → Bool
  | [], _ => true
  | _ :: _, [] => false
  | a :: as, b :: bs => if a == b then charsLe as bs else decide (a < b)

/-- Insert a string into a sorted list (code-point order, as Python compares `str`). -/
def insertStr (s : String) : List String → List String
  | [] => [s]
  | t :: ts => if charsLe s.data t.data then s :: t :: ts else t :: insertStr s ts

/-- Python `sorted()` on a list of strings. -/
def sortStr : List String → List String
  | [] => []
  | s :: ss => insertStr s (sortStr ss)

/-- First character of a string, used to separate the reason-message families. -/
def headChar (s : String) : Option Char := s.data.head?

/-! ### `bactopia/summary.py`: the rank classifier `get_rank` -/

/-- One tier of rank cutoffs (minimum coverage, quality, read length; maximum contigs). -/
structure Tier where
  coverage : ℚ
  quality : ℚ
  length : ℚ
  contigs : ℤ

/-- The full cutoff configuration handed to `get_rank`
(`RANK_CUTOFF` in `bactopia/cli/summary.py`). -/
structure Cutoff where
  gold : Tier
  silver : Tier
  bronze : Tier
  minAssembledSize : Option ℤ
  maxAssembledSize : Option ℤ

/-- `f"Low coverage ({coverage:.2f}x, expect >= {thr}x)"` -/
def lowCovMsg (cov thr : ℚ) : String :=
  "Low coverage (" ++ fmt2 cov ++ "x, expect >= " ++ ratStr thr ++ "x)"

/-- `f"Poor read quality (Q{quality:.2f}, expect >= Q{thr})"` -/
def poorQualMsg (qual thr : ℚ) : String :=
  "Poor read quality (Q" ++ fmt2 qual ++ ", expect >= Q" ++ ratStr thr ++ ")"

/-- `f"Short read length ({length}bp, expect >= {thr} bp)"` (tier branches; `length` is an int). -/
def shortLenMsg (len : ℤ) (thr : ℚ) : String :=
  "Short read length (" ++ toString len ++ "bp, expect >= " ++ ratStr thr ++ " bp)"

/-- `f"Short read length ({length:.2f}bp, expect >= {thr} bp)"` (final bronze re-check block). -/
def shortLenMsgF (len : ℤ) (thr : ℚ) : String :=
  "Short read length (" ++ fmt2 (len : ℚ) ++ "bp, expect >= " ++ ratStr thr ++ " bp)"

/-- `f"Too many contigs ({contigs}, expect <= {thr})"` -/
def manyContigsMsg (contigs thr : ℤ) : String :=
  "Too many contigs (" ++ toString contigs ++ ", expect <= " ++ toString thr ++ ")"

/-- `f"Assembled size is too small ({genome_size} bp, expect <= {m})"` -/
def sizeSmallMsg (gs m : ℤ) : String :=
  "Assembled size is too small (" ++ toString gs ++ " bp, expect <= " ++ toString m ++ ")"

/-- `f"Assembled size is too large ({genome_size} bp, expect <= {m})"` -/
def sizeLargeMsg (gs m : ℤ) : String :=
  "Assembled size is too large (" ++ toString gs ++ " bp, expect <= " ++ toString m ++ ")"

/-- The four numeric comparisons of one tier, exactly as written in `get_rank`
(coverage, quality and length are lower bounds, contigs an upper bound; all inclusive). -/
def tierPass (t : Tier) (cov qual : ℚ) (len contigs : ℤ) : Bool :=
  decide (cov ≥ t.coverage) && decide (qual ≥ t.quality) &&
  decide ((len : ℚ) ≥ t.length) && decide (contigs ≤ t.contigs)

/-- The four "which sub-check failed relative to the next tier up" messages appended in
the silver and bronze branches of `get_rank`. -/
def tierGapReasons (next : Tier) (cov qual : ℚ) (len contigs : ℤ) : List String :=
  (if cov < next.coverage then [lowCovMsg cov next.coverage] else []) ++
  (if qual < next.quality then [poorQualMsg qual next.quality] else []) ++
  (if (len : ℚ) < next.length then [shortLenMsg len next.length] else []) ++
  (if contigs > next.contigs then [manyContigsMsg contigs next.contigs] else [])

/-- The unconditional re-check against the bronze thresholds at the end of `get_rank`
(note the length message renders the integer with two decimals here). -/
def bronzeChecks (b : Tier) (cov qual : ℚ) (len contigs : ℤ) : List String :=
  (if cov < b.coverage then [lowCovMsg cov b.coverage] else []) ++
  (if qual < b.quality then [poorQualMsg qual b.quality] else []) ++
  (if (len : ℚ) < b.length then [shortLenMsgF len b.length] else []) ++
  (if contigs > b.contigs then [manyContigsMsg contigs b.contigs] else [])

/-- The assembled-size bound block of `get_rank`. A bound participates only when it is
truthy in Python (present and non-zero); note the source compares `genome_size <` the
bound in BOTH the minimum and the maximum branch. -/
def sizeReasons (c : Cutoff) (genome_size : ℤ) : List String :=
  (match c.minAssembledSize with
   | some m => if m ≠ 0 ∧ genome_size < m then [sizeSmallMsg genome_size m] else []
   | none => []) ++
  (match c.maxAssembledSize with
   | some m => if m ≠ 0 ∧ genome_size < m then [sizeLargeMsg genome_size m] else []
   | none => [])

/-- The gold/silver/bronze/exclude branch cascade of `get_rank`, on the already-coerced
metrics: the rank together with the tier-relative reason entries. -/
def tierBranch (c : Cutoff) (cov qual : ℚ) (len contigs : ℤ)
    (is_paired : Bool) : String × List String :=
  if tierPass c.gold cov qual len contigs && is_paired then
    ("gold", ["passed all cutoffs"])
  else if tierPass c.silver cov qual len contigs && is_paired then
    ("silver", tierGapReasons c.gold cov qual len contigs)
  else if tierPass c.bronze cov qual len contigs then
    ("bronze", tierGapReasons c.silver cov qual len contigs ++
      (if is_paired then [] else ["Single-end reads"]))
  else ("exclude", [])

/-- `get_rank` on the already-coerced metrics, before the final
`";".join(sorted(reason))`: the tier cascade followed by the unconditional bronze
re-check and the size-bound block, reasons in the order the source appends them. -/
def rankAndReasonsCore (c : Cutoff) (cov qual : ℚ) (len contigs genome_size : ℤ)
    (is_paired : Bool) : String × List String :=
  ((tierBranch c cov qual len contigs is_paired).1,
   (tierBranch c cov qual len contigs is_paired).2 ++
     bronzeChecks c.bronze cov qual len contigs ++ sizeReasons c genome_size)

/-- `get_rank` before the final join: first the numeric coercions
(`float(f"{x:.2f}")` for coverage and quality, `round(float(f"{x:.2f}"))` for the
read length), then the branch logic. -/
def rankAndReasons (c : Cutoff) (coverage quality length : ℚ)
    (contigs genome_size : ℤ) (is_paired : Bool) : String × List String :=
  rankAndReasonsCore c (round2 coverage) (round2 quality) (pyRound (round2 length))
    contigs genome_size is_paired

/-- `bactopia.summary.get_rank`: coerce the metrics, evaluate the tiers from strictest
to loosest, re-check bronze and the size bounds, and return
`[rank, ";".join(sorted(reason))]`. -/
def get_rank (c : Cutoff) (coverage quality length : ℚ)
    (contigs genome_size : ℤ) (is_paired : Bool) : String × String :=
  let r := rankAndReasons c coverage quality length contigs genome_size is_paired
  (r.1, String.intercalate ";" (sortStr r.2))

/-- The default cutoff configuration of `bactopia-summary`
(gold 100x/Q30/95bp/100, silver 50x/Q20/75bp/200, bronze 20x/Q12/49bp/500, no size bounds). -/
def defaultCutoff : Cutoff :=
  ⟨⟨100, 30, 95, 100⟩, ⟨50, 20, 75, 200⟩, ⟨20, 12, 49, 500⟩, none, none⟩

/-- The default cutoffs with a maximum assembled-size bound of 7 Mbp configured. -/
def cutoffWithMax : Cutoff :=
  ⟨⟨100, 30, 95, 100⟩, ⟨50, 20, 75, 200⟩, ⟨20, 12, 49, 500⟩, none, some 7000000⟩

/-! ### `bactopia/parsers/parsables.py`: the completeness scanner `get_parsable_files` -/

/-- Filesystem abstraction: whether a path exists. -/
abbrev FS := String → Bool

/-- A dynamically-typed Python value, as far as the return shapes of
`get_parsable_files` require: a bool, a string, a list, or a str-to-str dict. -/
inductive Py where
  | bool : Bool → Py
  | str : String → Py
  | list : List Py → Py
  | dict : List (String × String) → Py

/-- Python attribute access `.items()`: defined on a dict, an `AttributeError`
(modelled as `none`) on anything else. -/
def Py.items : Py → Option (List (String × String))
  | .dict kvs => some kvs
  | _ => none

/-- The fixed `parsable_files` dict literal of `get_parsable_files`
(file path to parser name, in source order). -/
def parsableFilesBase (path name : String) : List (String × String) :=
  [ (path ++ "/main/assembler/" ++ name ++ ".tsv", "assembler"),
    (path ++ "/main/gather/" ++ name ++ "-meta.tsv", "gather"),
    (path ++ "/main/sketcher/" ++ name ++ "-mash-refseq88-k21.txt", "sketcher"),
    (path ++ "/main/sketcher/" ++ name ++ "-sourmash-gtdb-rs207-k31.txt", "sketcher"),
    (path ++ "/tools/amrfinderplus/" ++ name ++ ".tsv", "amrfinderplus"),
    (path ++ "/tools/mlst/" ++ name ++ ".tsv", "mlst") ]

/-- The paths of the fixed base files missing from the filesystem, in source order. -/
def missingBase (fs : FS) (path name : String) : List String :=
  (parsableFilesBase path name).filterMap (fun pf => if fs pf.1 then none else some pf.1)

/-- The bakta annotation file candidate. -/
def baktaFile (path name : String) : String :=
  path ++ "/main/annotator/bakta/" ++ name ++ ".txt"

/-- The prokka annotation file candidate. -/
def prokkaFile (path name : String) : String :=
  path ++ "/main/annotator/prokka/" ++ name ++ ".txt"

/-- The annotation either-or selection in `get_parsable_files`: the bakta candidate is
checked first, then the prokka candidate (first match wins); `none` when neither exists. -/
def annotatorChoice (fs : FS) (path name : String) : Option String :=
  if fs (baktaFile path name) then some (baktaFile path name)
  else if fs (prokkaFile path name) then some (prokkaFile path name)
  else none

/-- The two QC summary files appended once the sample is known to be complete. -/
def qcFiles (path name : String) : List (String × String) :=
  [ (path ++ "/main/qc/summary/" ++ name ++ "-original.json", "qc"),
    (path ++ "/main/qc/summary/" ++ name ++ "-final.json", "qc") ]

/-- `bactopia.parsers.parsables.get_parsable_files`: returns the Python list
`[is_complete, parsable_files]` when every required file is present (with the QC entries
appended), and `[is_complete, missing_files]` otherwise. -/
def get_parsable_files (fs : FS) (path name : String) : Py :=
  let mb := missingBase fs path name
  match annotatorChoice fs path name with
  | some f =>
    if mb.isEmpty then
      Py.list [Py.bool true,
        Py.dict (parsableFilesBase path name ++ [(f, "annotator")] ++ qcFiles path name)]
    else
      Py.list [Py.bool false, Py.list (mb.map Py.str)]
  | none =>
    Py.list [Py.bool false,
      Py.list ((mb ++ [prokkaFile path name, baktaFile path name]).map Py.str)]

/-! ### `bactopia/cli/summary.py`: output paths, pre-flight check, report writes -/

/-- `f"{outdir}/{prefix}-report.tsv".replace("//", "/")` -/
def txtReport (outdir pfx : String) : String :=
  strReplace (outdir ++ "/" ++ pfx ++ "-report.tsv") "//" "/"

/-- `f"{outdir}/{prefix}-exclude.tsv".replace("//", "/")` -/
def exclusionReport (outdir pfx : String) : String :=
  strReplace (outdir ++ "/" ++ pfx ++ "-exclude.tsv") "//" "/"

/-- `f"{outdir}/{prefix}-summary.txt".replace("//", "/")` -/
def summaryReport (outdir pfx : String) : String :=
  strReplace (outdir ++ "/" ++ pfx ++ "-summary.txt") "//" "/"

/-- The pre-flight refuse-to-overwrite check of the `summary` command, run before any
sample processing: `true` means the program logs an error and calls `sys.exit(1)`.
The source consults only the existence of the full tab-delimited report path
(`if Path(txt_report).exists() and not force`); the exclusion and summary report
paths are not consulted. -/
def preflightExits (fs : FS) (outdir pfx : String) (force : Bool) : Bool :=
  fs (txtReport outdir pfx) && !force

/-! ### `bactopia/parsers/qc.py`: the QC parser and its mate-pair merge -/

/-- A JSON-decoded Python value as the QC parser manipulates it: an int, a float
(exact rational), a string, a bool, or a nested dict. -/
inductive QVal where
  | int : ℤ → QVal
  | float : ℚ → QVal
  | str : String → QVal
  | bool : Bool → QVal
  | dict : List (String × QVal) → QVal

/-- Python dict lookup on an insertion-ordered association list. -/
def lookupA (k : String) : List (String × QVal) → Option QVal
  | [] => none
  | (k1, v) :: rest => if k1 == k then some v else lookupA k rest

/-- Python dict assignment `d[k] = v`: overwrite in place, else append. -/
def dictSet (l : List (String × QVal)) (k : String) (v : QVal) : List (String × QVal) :=
  if l.any (fun p => p.1 == k) then
    l.map (fun p => if p.1 == k then (k, v) else p)
  else l ++ [(k, v)]

/-- Python `+` on JSON values: exact on numbers, concatenation on strings,
a `TypeError` (`none`) on other combinations. -/
def pyAdd : QVal → QVal → Option QVal
  | .int a, .int b => some (.int (a + b))
  | .int a, .float b => some (.float ((a : ℚ) + b))
  | .float a, .int b => some (.float (a + (b : ℚ)))
  | .float a, .float b => some (.float (a + b))
  | .str a, .str b => some (.str (a ++ b))
  | _, _ => none

/-- `statistics.mean([a, b])`: an exact int when both are ints and the sum is even,
otherwise a float; a `TypeError` (`none`) on non-numeric input. -/
def pyMean : QVal → QVal → Option QVal
  | .int a, .int b =>
    if (a + b) % 2 = 0 then some (.int ((a + b) / 2))
    else some (.float (((a + b : ℤ) : ℚ) / 2))
  | .int a, .float b => some (.float (((a : ℚ) + b) / 2))
  | .float a, .int b => some (.float ((a + (b : ℚ)) / 2))
  | .float a, .float b => some (.float ((a + b) / 2))
  | _, _ => none

/-- `f"{val:.4f}" if isinstance(val, float) else val` -/
def render4 : QVal → QVal
  | .float q => .str (fmt4 q)
  | v => v

/-- The three `qc_stats` keys that are summed rather than averaged across mates. -/
def sumKeys : List String := ["total_bp", "coverage", "read_total"]

/-- The `for key in r1["qc_stats"]` loop of `_merge_qc_stats`: builds the merged
`qc_stats` dict in R1 key order, summing the `sumKeys` and averaging (then rendering)
everything else; `r2Empty` is the truthiness of the whole R2 record. -/
def mergeStatsLoop (r2Empty : Bool) (st2 : List (String × QVal)) :
    List (String × QVal) → Option (List (String × QVal))
  | [] => some []
  | (k, v1) :: rest =>
    match
      (if r2Empty then
        (if sumKeys.contains k then some v1 else some (render4 v1))
      else
        match lookupA k st2 with
        | none => none
        | some v2 =>
          if sumKeys.contains k then pyAdd v1 v2 else (pyMean v1 v2).map render4) with
    | none => none
    | some newv =>
      match mergeStatsLoop r2Empty st2 rest with
      | none => none
      | some tail => some ((k, newv) :: tail)

/-- `bactopia.parsers.qc._merge_qc_stats`: keep the per-mate raw distributions,
then merge the two `qc_stats` dicts key by key. Any `KeyError`/`TypeError` the Python
code would raise is `none`. -/
def mergeQcStats (r1 r2 : List (String × QVal)) : Option (List (String × QVal)) :=
  match lookupA "per_base_quality" r1, lookupA "per_base_quality" r2,
        lookupA "read_lengths" r1, lookupA "read_lengths" r2,
        lookupA "qc_stats" r1, lookupA "qc_stats" r2 with
  | some pbq1, some pbq2, some rl1, some rl2, some (QVal.dict st1), some (QVal.dict st2) =>
    (match mergeStatsLoop r2.isEmpty st2 st1 with
     | none => none
     | some merged =>
       some [("qc_stats", QVal.dict merged),
             ("r1_per_base_quality", pbq1), ("r2_per_base_quality", pbq2),
             ("r1_read_lengths", rl1), ("r2_read_lengths", rl2)])
  | _, _, _, _, _, _ => none

/-- The R1 mate path derived in `qc.parse` by string replacement on the input path. -/
def qcR1Path (path : String) : String :=
  if strContains path "original" then strReplace path "-original.json" "_R1-original.json"
  else strReplace path "-final.json" "_R1-final.json"

/-- The R2 mate path derived in `qc.parse` by string replacement on the input path. -/
def qcR2Path (path : String) : String :=
  if strContains path "original" then strReplace path "-original.json" "_R2-original.json"
  else strReplace path "-final.json" "_R2-final.json"

/-- The key-prefixing loop at the end of `qc.parse`: flatten `qc_stats` and prefix every
other non-`sample` key with `qc_<step>_`; iterating `.items()` on a non-dict `qc_stats`
is an error (`none`). -/
def qcFlatten (step : String) : List (String × QVal) → List (String × QVal) →
    Option (List (String × QVal))
  | acc, [] => some acc
  | acc, (k, v) :: rest =>
    if k == "sample" then qcFlatten step (dictSet acc k v) rest
    else if k == "qc_stats" then
      match v with
      | .dict st =>
        qcFlatten step
          (st.foldl (fun a p => dictSet a ("qc_" ++ step ++ "_" ++ p.1) p.2) acc) rest
      | _ => none
    else qcFlatten step (dictSet acc ("qc_" ++ step ++ "_" ++ k) v) rest

/-- `bactopia.parsers.qc.parse` over an abstract filesystem `fs` and a JSON-decode
oracle `content` (the result of `parse_json` on an existing file): pick the merged
single file or the R1/R2 pair by existence, merge if paired, set the
`qc_<step>_is_paired` flag and prefix all keys; a sample with neither layout yields
just `{"sample": name}`. -/
def qcParse (fs : FS) (content : String → List (String × QVal))
    (path name : String) : Option (List (String × QVal)) :=
  let r1r2 : Option (String × Option String) :=
    if fs path then some (path, none)
    else
      if fs (qcR1Path path) && fs (qcR2Path path) then
        some (qcR1Path path, some (qcR2Path path))
      else none
  match r1r2 with
  | none => some [("sample", QVal.str name)]
  | some (r1, r2opt) => do
    let step := if strContains r1 "original" then "original" else "final"
    let results ←
      match r2opt with
      | some r2 => mergeQcStats (content r1) (content r2)
      | none => some (content r1)
    let acc0 := dictSet [("sample", QVal.str name)]
      ("qc_" ++ step ++ "_is_paired") (QVal.bool r2opt.isSome)
    qcFlatten step acc0 results

/-! ### Helper lemmas -/

theorem pyRound_intCast (n : ℤ) : pyRound (n : ℚ) = n := by
  simp [pyRound, Int.floor_intCast]

theorem round2_intCast (n : ℤ) : round2 (n : ℚ) = n := by
  unfold round2
  rw [show ((n : ℚ) * 100) = ((n * 100 : ℤ) : ℚ) by push_cast; ring, pyRound_intCast]
  push_cast
  ring

theorem tierPass_eq_true_iff (t : Tier) (cov qual : ℚ) (len contigs : ℤ) :
    tierPass t cov qual len contigs = true ↔
      t.coverage ≤ cov ∧ t.quality ≤ qual ∧ t.length ≤ (len : ℚ) ∧ contigs ≤ t.contigs := by
  simp [tierPass, ge_iff_le, and_assoc]

theorem headChar_append (a b : String) (c : Char) (h : headChar a = some c) :
    headChar (a ++ b) = some c := by
  unfold headChar at h ⊢
  rw [String.data_append]
  cases hd : a.data with
  | nil => rw [hd] at h; simp at h
  | cons x xs =>
    rw [hd] at h
    simpa using h

theorem ne_of_headChar {s t : String} (c1 c2 : Char) (h1 : headChar s = some c1)
    (h2 : headChar t = some c2) (h : c1 ≠ c2) : s ≠ t := by
  intro e
  rw [e, h2] at h1
  exact h (Option.some_injective _ h1).symm

theorem headChar_lowCovMsg (a b : ℚ) : headChar (lowCovMsg a b) = some 'L' :=
  headChar_append _ _ _ (headChar_append _ _ _ (headChar_append _ _ _
    (headChar_append _ _ _ (by decide))))

theorem headChar_poorQualMsg (a b : ℚ) : headChar (poorQualMsg a b) = some 'P' :=
  headChar_append _ _ _ (headChar_append _ _ _ (headChar_append _ _ _
    (headChar_append _ _ _ (by decide))))

theorem headChar_shortLenMsg (a : ℤ) (b : ℚ) : headChar (shortLenMsg a b) = some 'S' :=
  headChar_append _ _ _ (headChar_append _ _ _ (headChar_append _ _ _
    (headChar_append _ _ _ (by decide))))

theorem headChar_shortLenMsgF (a : ℤ) (b : ℚ) : headChar (shortLenMsgF a b) = some 'S' :=
  headChar_append _ _ _ (headChar_append _ _ _ (headChar_append _ _ _
    (headChar_append _ _ _ (by decide))))

theorem headChar_manyContigsMsg (a b : ℤ) : headChar (manyContigsMsg a b) = some 'T' :=
  headChar_append _ _ _ (headChar_append _ _ _ (headChar_append _ _ _
    (headChar_append _ _ _ (by decide))))

theorem headChar_sizeSmallMsg (a b : ℤ) : headChar (sizeSmallMsg a b) = some 'A' :=
  headChar_append _ _ _ (headChar_append _ _ _ (headChar_append _ _ _
    (headChar_append _ _ _ (by decide))))

theorem headChar_sizeLargeMsg (a b : ℤ) : headChar (sizeLargeMsg a b) = some 'A' :=
  headChar_append _ _ _ (headChar_append _ _ _ (headChar_append _ _ _
    (headChar_append _ _ _ (by decide))))

theorem count_guard_self (p : Prop) [Decidable p] (a : String) :
    List.count a (if p then [a] else []) = if p then 1 else 0 := by
  split <;> simp

theorem count_guard_ne {p : Prop} [Decidable p] {a b : String} (h : a ≠ b) :
    List.count a (if p then [b] else []) = 0 := by
  split <;> simp [List.count_eq_zero, h]

theorem count_sizeReasons_eq_zero (c : Cutoff) (gs : ℤ) (a : String)
    (h1 : ∀ m, a ≠ sizeSmallMsg gs m) (h2 : ∀ m, a ≠ sizeLargeMsg gs m) :
    List.count a (sizeReasons c gs) = 0 := by
  unfold sizeReasons
  rw [List.count_append]
  cases c.minAssembledSize <;> cases c.maxAssembledSize <;>
    simp [count_guard_ne, h1, h2, List.count_eq_zero]

theorem baktaFile_ne_prokkaFile (p n : String) : baktaFile p n ≠ prokkaFile p n := by
  intro h
  have hlen := congrArg String.length h
  have e1 : ("/main/annotator/bakta/" : String).length = 22 := rfl
  have e2 : ("/main/annotator/prokka/" : String).length = 23 := rfl
  simp only [baktaFile, prokkaFile, String.length_append, e1, e2] at hlen
  omega

theorem round2_eval (q : ℚ) (n : ℤ) (h : q = (n : ℚ)) : round2 q = q := by
  rw [h, round2_intCast]

theorem lenRound_eval (q : ℚ) (n : ℤ) (h : q = (n : ℚ)) : pyRound (round2 q) = n := by
  rw [h, round2_intCast, pyRound_intCast]

theorem tierPass_eq_false_iff (t : Tier) (cov qual : ℚ) (len contigs : ℤ) :
    tierPass t cov qual len contigs = false ↔
      ¬(t.coverage ≤ cov ∧ t.quality ≤ qual ∧ t.length ≤ (len : ℚ) ∧
        contigs ≤ t.contigs) := by
  rw [Bool.eq_false_iff]
  exact not_congr (tierPass_eq_true_iff t cov qual len contigs)

theorem count_bronzeChecks_lowCov (b : Tier) (cov qual : ℚ) (len contigs : ℤ) :
    List.count (lowCovMsg cov b.coverage) (bronzeChecks b cov qual len contigs) =
      if cov < b.coverage then 1 else 0 := by
  unfold bronzeChecks
  rw [List.count_append, List.count_append, List.count_append, count_guard_self,
    count_guard_ne (ne_of_headChar 'L' 'P' (headChar_lowCovMsg _ _)
      (headChar_poorQualMsg _ _) (by decide)),
    count_guard_ne (ne_of_headChar 'L' 'S' (headChar_lowCovMsg _ _)
      (headChar_shortLenMsgF _ _) (by decide)),
    count_guard_ne (ne_of_headChar 'L' 'T' (headChar_lowCovMsg _ _)
      (headChar_manyContigsMsg _ _) (by decide))]
  simp

theorem count_bronzeChecks_poorQual (b : Tier) (cov qual : ℚ) (len contigs : ℤ) :
    List.count (poorQualMsg qual b.quality) (bronzeChecks b cov qual len contigs) =
      if qual < b.quality then 1 else 0 := by
  unfold bronzeChecks
  rw [List.count_append, List.count_append, List.count_append,
    count_guard_ne (ne_of_headChar 'P' 'L' (headChar_poorQualMsg _ _)
      (headChar_lowCovMsg _ _) (by decide)),
    count_guard_self,
    count_guard_ne (ne_of_headChar 'P' 'S' (headChar_poorQualMsg _ _)
      (headChar_shortLenMsgF _ _) (by decide)),
    count_guard_ne (ne_of_headChar 'P' 'T' (headChar_poorQualMsg _ _)
      (headChar_manyContigsMsg _ _) (by decide))]
  simp

theorem count_bronzeChecks_shortLen (b : Tier) (cov qual : ℚ) (len contigs : ℤ) :
    List.count (shortLenMsgF len b.length) (bronzeChecks b cov qual len contigs) =
      if (len : ℚ) < b.length then 1 else 0 := by
  unfold bronzeChecks
  rw [List.count_append, List.count_append, List.count_append,
    count_guard_ne (ne_of_headChar 'S' 'L' (headChar_shortLenMsgF _ _)
      (headChar_lowCovMsg _ _) (by decide)),
    count_guard_ne (ne_of_headChar 'S' 'P' (headChar_shortLenMsgF _ _)
      (headChar_poorQualMsg _ _) (by decide)),
    count_guard_self,
    count_guard_ne (ne_of_headChar 'S' 'T' (headChar_shortLenMsgF _ _)
      (headChar_manyContigsMsg _ _) (by decide))]
  simp

theorem count_bronzeChecks_manyContigs (b : Tier) (cov qual : ℚ) (len contigs : ℤ) :
    List.count (manyContigsMsg contigs b.contigs) (bronzeChecks b cov qual len contigs) =
      if contigs > b.contigs then 1 else 0 := by
  unfold bronzeChecks
  rw [List.count_append, List.count_append, List.count_append,
    count_guard_ne (ne_of_headChar 'T' 'L' (headChar_manyContigsMsg _ _)
      (headChar_lowCovMsg _ _) (by decide)),
    count_guard_ne (ne_of_headChar 'T' 'P' (headChar_manyContigsMsg _ _)
      (headChar_poorQualMsg _ _) (by decide)),
    count_guard_ne (ne_of_headChar 'T' 'S' (headChar_manyContigsMsg _ _)
      (headChar_shortLenMsgF _ _) (by decide)),
    count_guard_self]
  simp

theorem rankAndReasonsCore_gold (c : Cutoff) (cov qual : ℚ) (len contigs gs : ℤ)
    (hg : tierPass c.gold cov qual len contigs = true) :
    rankAndReasonsCore c cov qual len contigs gs true =
      ("gold", ["passed all cutoffs"] ++ bronzeChecks c.bronze cov qual len contigs ++
        sizeReasons c gs) := by
  unfold rankAndReasonsCore tierBranch
  rw [hg]
  rfl

theorem lookupA_nil (k : String) : lookupA k [] = none := rfl

theorem mergeStatsLoop_lookup (st2 : List (String × QVal)) (k : String) :
    ∀ (st1 w : List (String × QVal)) (v1 v2 : QVal),
      mergeStatsLoop false st2 st1 = some w →
      (st1.map Prod.fst).Nodup →
      lookupA k st1 = some v1 → lookupA k st2 = some v2 →
      lookupA k w =
        if sumKeys.contains k then pyAdd v1 v2 else (pyMean v1 v2).map render4 := by
  intro st1
  induction st1 with
  | nil =>
    intro w v1 v2 hm hnd h1 h2
    simp [lookupA] at h1
  | cons p rest ih =>
    intro w v1 v2 hm hnd h1 h2
    obtain ⟨k1, u1⟩ := p
    rw [mergeStatsLoop] at hm
    simp only [Bool.false_eq_true, if_false] at hm
    cases hv2x : lookupA k1 st2 with
    | none => rw [hv2x] at hm; simp at hm
    | some v2x =>
      rw [hv2x] at hm
      dsimp only at hm
      cases hval : (if sumKeys.contains k1 then pyAdd u1 v2x
          else (pyMean u1 v2x).map render4) with
      | none => rw [hval] at hm; simp at hm
      | some newv =>
        rw [hval] at hm
        cases htail : mergeStatsLoop false st2 rest with
        | none => rw [htail] at hm; simp at hm
        | some tail =>
          rw [htail] at hm
          simp only [Option.some.injEq] at hm
          subst hm
          by_cases hk : k1 = k
          · subst hk
            simp only [lookupA, beq_self_eq_true, if_true, Option.some.injEq] at h1 ⊢
            rw [hv2x] at h2
            have hv : v2x = v2 := Option.some_injective _ h2
            rw [← h1, ← hv]
            exact hval.symm
          · have hbeq : (k1 == k) = false := by simp [hk]
            simp only [lookupA, hbeq, if_false] at h1 ⊢
            simp only [List.map_cons, List.nodup_cons] at hnd
            exact ih tail v1 v2 htail hnd.2 h1 h2

/-! ### Claim theorems -/

/-- C1: the per-sample loop of the `summary` command iterates
`get_parsable_files(...).items()`, but `get_parsable_files` always returns the
two-element Python list `[is_complete, files]`, never a dict, so the `.items()`
attribute access fails (`none`) for every sample directory: the aggregation never
completes without raising for an error-free sample. -/
theorem get_parsable_files_items_none (fs : FS) (path name : String) :
    (get_parsable_files fs path name).items = none := by
  unfold get_parsable_files
  cases annotatorChoice fs path name with
  | none => rfl
  | some f =>
    by_cases h : (missingBase fs path name).isEmpty <;> simp [h, Py.items]

/-- C10: when neither the merged QC JSON nor both per-mate JSON files exist,
`qc.parse` raises nothing and returns only the sample name (no qc-prefixed keys,
no is-paired flag). -/
theorem qc_parse_missing_files_sample_only (fs : FS)
    (content : String → List (String × QVal)) (path name : String)
    (h1 : fs path = false) (h2 : (fs (qcR1Path path) && fs (qcR2Path path)) = false) :
    qcParse fs content path name = some [("sample", QVal.str name)] := by
  unfold qcParse
  rw [h1, h2]
  rfl

/-- C10 witness: a filesystem with no files at all yields just the sample name. -/
theorem qc_parse_missing_files_sample_only_witness :
    qcParse (fun _ => false) (fun _ => []) "/x/sample-final.json" "sample" =
      some [("sample", QVal.str "sample")] :=
  qc_parse_missing_files_sample_only (fun _ => false) (fun _ => [])
    "/x/sample-final.json" "sample" rfl rfl

/-- C5 counterexample: with the exclusion report already existing, the full report
absent and no force flag, the pre-flight check does NOT exit — the program enters
sample processing instead of reporting a refuse-to-overwrite error. -/
theorem existing_exclusion_report_not_checked :
    (fun s => s == "out/bactopia-exclude.tsv") (exclusionReport "out" "bactopia") = true ∧
    preflightExits (fun s => s == "out/bactopia-exclude.tsv") "out" "bactopia" false =
      false := by
  refine ⟨by decide, ?_⟩
  unfold preflightExits
  decide

/-- C5 amended: the pre-flight check consults only the full tab-delimited report path;
if that file exists without `--force` the run exits non-zero before any sample
processing, while whenever it is absent the pre-flight never fires — an existing
exclusion or summary report alone does not stop the run from entering sample
processing. -/
theorem preflight_checks_only_txt_report (fs : FS) (o p : String)
    (h : fs (txtReport o p) = true) :
    preflightExits fs o p false = true ∧
    ∀ g : FS, g (txtReport o p) = false → preflightExits g o p false = false := by
  constructor
  · unfold preflightExits
    rw [h]
    rfl
  · intro g hg
    unfold preflightExits
    rw [hg]
    rfl

/-- C5 amended witness at a concrete filesystem where every path exists. -/
theorem preflight_checks_only_txt_report_witness :
    preflightExits (fun _ => true) "out" "bactopia" false = true ∧
    ∀ g : FS, g (txtReport "out" "bactopia") = false →
      preflightExits g "out" "bactopia" false = false :=
  preflight_checks_only_txt_report (fun _ => true) "out" "bactopia" rfl

/-- C4 counterexample: with BOTH annotation files present, the selected annotation file
is the bakta one, not the prokka one (the source checks bakta first). -/
theorem both_annotations_bakta_selected :
    annotatorChoice (fun _ => true) "/s" "n" = some (baktaFile "/s" "n") ∧
    baktaFile "/s" "n" ≠ prokkaFile "/s" "n" ∧
    get_parsable_files (fun _ => true) "/s" "n" =
      Py.list [Py.bool true,
        Py.dict (parsableFilesBase "/s" "n" ++ [(baktaFile "/s" "n", "annotator")] ++
          qcFiles "/s" "n")] := by
  refine ⟨by decide, by decide, ?_⟩
  rfl

/-- C4 amended: when both annotation files exist, exactly one is selected and it is the
BAKTA file (candidates are checked with bakta first, first match wins); the prokka file
is never the selection, and for a complete sample the returned dict carries the bakta
path as the single annotator entry. -/
theorem bakta_selected_over_prokka (fs : FS) (p n : String)
    (hb : fs (baktaFile p n) = true) (_hp : fs (prokkaFile p n) = true) :
    annotatorChoice fs p n = some (baktaFile p n) ∧
    annotatorChoice fs p n ≠ some (prokkaFile p n) ∧
    (missingBase fs p n = [] →
      get_parsable_files fs p n =
        Py.list [Py.bool true,
          Py.dict (parsableFilesBase p n ++ [(baktaFile p n, "annotator")] ++
            qcFiles p n)]) := by
  have hsel : annotatorChoice fs p n = some (baktaFile p n) := by
    unfold annotatorChoice
    rw [hb]
    rfl
  refine ⟨hsel, ?_, ?_⟩
  · rw [hsel]
    intro h
    exact baktaFile_ne_prokkaFile p n (Option.some_injective _ h)
  · intro hmb
    unfold get_parsable_files
    rw [hsel, hmb]
    rfl

/-- C4 amended witness: the all-files-present filesystem. -/
theorem bakta_selected_over_prokka_witness :
    annotatorChoice (fun _ => true) "/d" "x" = some (baktaFile "/d" "x") ∧
    annotatorChoice (fun _ => true) "/d" "x" ≠ some (prokkaFile "/d" "x") ∧
    (missingBase (fun _ => true) "/d" "x" = [] →
      get_parsable_files (fun _ => true) "/d" "x" =
        Py.list [Py.bool true,
          Py.dict (parsableFilesBase "/d" "x" ++ [(baktaFile "/d" "x", "annotator")] ++
            qcFiles "/d" "x")]) :=
  bakta_selected_over_prokka (fun _ => true) "/d" "x" rfl rfl

/-- C3 counterexample: a sample exceeding every gold threshold, paired, with no
assembled-size bound configured, gets rank gold but a NON-empty reason string
("passed all cutoffs"), contradicting "the reason string is empty unless a
configured assembled-size bound is violated". -/
theorem gold_reason_not_empty :
    get_rank defaultCutoff 150 35 100 50 5000000 true = ("gold", "passed all cutoffs") ∧
    defaultCutoff.minAssembledSize = none ∧ defaultCutoff.maxAssembledSize = none ∧
    ("passed all cutoffs" : String) ≠ "" := by
  refine ⟨?_, rfl, rfl, by decide⟩
  have h1 : round2 (150 : ℚ) = 150 := round2_eval 150 150 (by norm_num)
  have h2 : round2 (35 : ℚ) = 35 := round2_eval 35 35 (by norm_num)
  have h3 : pyRound (round2 (100 : ℚ)) = 100 := lenRound_eval 100 100 (by norm_num)
  have hcore : rankAndReasons defaultCutoff 150 35 100 50 5000000 true =
      ("gold", ["passed all cutoffs"]) := by
    unfold rankAndReasons
    rw [h1, h2, h3]
    rw [rankAndReasonsCore_gold defaultCutoff 150 35 100 50 5000000
      (by rw [tierPass_eq_true_iff]; refine ⟨?_, ?_, ?_, ?_⟩ <;> norm_num [defaultCutoff])]
    norm_num [bronzeChecks, sizeReasons, defaultCutoff]
  unfold get_rank
  rw [hcore]
  rfl

/-- C3 amended: for metrics meeting the gold thresholds (as the classifier compares
them, after rounding) with paired reads, and bronze thresholds no stricter than gold,
`get_rank` returns rank gold and the reason consists of the fixed entry
"passed all cutoffs" together with exactly the assembled-size-bound entries. -/
theorem gold_rank_reason_passed_all (c : Cutoff) (coverage quality length : ℚ)
    (contigs genome_size : ℤ)
    (hbc : c.bronze.coverage ≤ c.gold.coverage) (hbq : c.bronze.quality ≤ c.gold.quality)
    (hbl : c.bronze.length ≤ c.gold.length) (hbn : c.gold.contigs ≤ c.bronze.contigs)
    (hc : c.gold.coverage ≤ round2 coverage) (hq : c.gold.quality ≤ round2 quality)
    (hl : c.gold.length ≤ (pyRound (round2 length) : ℚ)) (hn : contigs ≤ c.gold.contigs) :
    (get_rank c coverage quality length contigs genome_size true).1 = "gold" ∧
    (rankAndReasons c coverage quality length contigs genome_size true).2 =
      "passed all cutoffs" :: sizeReasons c genome_size := by
  have hg : tierPass c.gold (round2 coverage) (round2 quality)
      (pyRound (round2 length)) contigs = true :=
    (tierPass_eq_true_iff _ _ _ _ _).mpr ⟨hc, hq, hl, hn⟩
  have hbz : bronzeChecks c.bronze (round2 coverage) (round2 quality)
      (pyRound (round2 length)) contigs = [] := by
    unfold bronzeChecks
    rw [if_neg (not_lt.mpr (hbc.trans hc)), if_neg (not_lt.mpr (hbq.trans hq)),
        if_neg (not_lt.mpr (hbl.trans hl)), if_neg (not_lt.mpr (hn.trans hbn))]
    rfl
  have hcore := rankAndReasonsCore_gold c (round2 coverage) (round2 quality)
    (pyRound (round2 length)) contigs genome_size hg
  constructor
  · unfold get_rank rankAndReasons
    rw [hcore]
  · unfold rankAndReasons
    rw [hcore, hbz]
    rfl

/-- C3 amended witness at the default cutoffs with an above-gold sample. -/
theorem gold_rank_reason_passed_all_witness :
    (get_rank defaultCutoff 150 35 100 50 5000000 true).1 = "gold" ∧
    (rankAndReasons defaultCutoff 150 35 100 50 5000000 true).2 =
      "passed all cutoffs" :: sizeReasons defaultCutoff 5000000 :=
  gold_rank_reason_passed_all defaultCutoff 150 35 100 50 5000000
    (by norm_num [defaultCutoff]) (by norm_num [defaultCutoff])
    (by norm_num [defaultCutoff]) (by norm_num [defaultCutoff])
    (by rw [round2_eval 150 150 (by norm_num)]; norm_num [defaultCutoff])
    (by rw [round2_eval 35 35 (by norm_num)]; norm_num [defaultCutoff])
    (by rw [lenRound_eval 100 100 (by norm_num)]; norm_num [defaultCutoff])
    (by norm_num [defaultCutoff])

/-- C2: with a maximum assembled-size bound of 7000000 configured, an assembly of
4000000 bp (BELOW the bound) receives the "Assembled size is too large" reason, while
an assembly of 8000000 bp (above the bound) receives no size reason at all — the
source compares `genome_size <` the maximum instead of `>`. -/
theorem size_too_large_reason_below_bound :
    ((4000000 : ℤ) < 7000000 ∧
     sizeLargeMsg 4000000 7000000 ∈
       (rankAndReasons cutoffWithMax 150 35 100 50 4000000 true).2) ∧
    ((7000000 : ℤ) < 8000000 ∧
     (rankAndReasons cutoffWithMax 150 35 100 50 8000000 true).2 =
       ["passed all cutoffs"]) := by
  have h1 : round2 (150 : ℚ) = 150 := round2_eval 150 150 (by norm_num)
  have h2 : round2 (35 : ℚ) = 35 := round2_eval 35 35 (by norm_num)
  have h3 : pyRound (round2 (100 : ℚ)) = 100 := lenRound_eval 100 100 (by norm_num)
  have hg : tierPass cutoffWithMax.gold (round2 (150 : ℚ)) (round2 (35 : ℚ))
      (pyRound (round2 (100 : ℚ))) 50 = true := by
    rw [h1, h2, h3, tierPass_eq_true_iff]
    refine ⟨?_, ?_, ?_, ?_⟩ <;> norm_num [cutoffWithMax]
  constructor
  · refine ⟨by norm_num, ?_⟩
    unfold rankAndReasons
    rw [rankAndReasonsCore_gold cutoffWithMax _ _ _ 50 4000000 hg]
    rw [h1, h2, h3]
    norm_num [bronzeChecks, sizeReasons, cutoffWithMax]
  · refine ⟨by norm_num, ?_⟩
    unfold rankAndReasons
    rw [rankAndReasonsCore_gold cutoffWithMax _ _ _ 50 8000000 hg]
    rw [h1, h2, h3]
    norm_num [bronzeChecks, sizeReasons, cutoffWithMax]

/-- C7: when coverage, quality and read length each exactly equal the (integer-valued,
as on the CLI) bronze thresholds, the contig count equals the bronze maximum, and the
reads are single-end, `get_rank` returns rank bronze: every tier comparison is
inclusive. -/
theorem bronze_boundary_inclusive (c : Cutoff) (coverage quality length : ℚ)
    (contigs genome_size : ℤ)
    (ic : ∃ n : ℤ, c.bronze.coverage = (n : ℚ))
    (iq : ∃ n : ℤ, c.bronze.quality = (n : ℚ))
    (il : ∃ n : ℤ, c.bronze.length = (n : ℚ))
    (hc : coverage = c.bronze.coverage) (hq : quality = c.bronze.quality)
    (hl : length = c.bronze.length) (hn : contigs = c.bronze.contigs) :
    (get_rank c coverage quality length contigs genome_size false).1 = "bronze" := by
  obtain ⟨nc, ec⟩ := ic
  obtain ⟨nq, eq1⟩ := iq
  obtain ⟨nl, el⟩ := il
  have e1 : round2 coverage = c.bronze.coverage := by rw [hc, ec, round2_intCast]
  have e2 : round2 quality = c.bronze.quality := by rw [hq, eq1, round2_intCast]
  have e3 : (pyRound (round2 length) : ℚ) = c.bronze.length := by
    rw [hl, el, round2_intCast, pyRound_intCast]
  have hb : tierPass c.bronze (round2 coverage) (round2 quality)
      (pyRound (round2 length)) contigs = true := by
    rw [tierPass_eq_true_iff]
    exact ⟨e1.ge, e2.ge, e3.ge, hn.le⟩
  have htb : (tierBranch c (round2 coverage) (round2 quality)
      (pyRound (round2 length)) contigs false).1 = "bronze" := by
    unfold tierBranch
    simp only [Bool.and_false, Bool.false_eq_true, if_false]
    rw [hb]
    rfl
  unfold get_rank rankAndReasons rankAndReasonsCore
  exact htb

/-- C7 witness: the default bronze thresholds themselves (20x, Q12, 49 bp, 500 contigs,
single-end) rank bronze. -/
theorem bronze_boundary_inclusive_witness :
    (get_rank defaultCutoff 20 12 49 500 0 false).1 = "bronze" :=
  bronze_boundary_inclusive defaultCutoff 20 12 49 500 0
    ⟨20, by norm_num [defaultCutoff]⟩ ⟨12, by norm_num [defaultCutoff]⟩
    ⟨49, by norm_num [defaultCutoff]⟩ rfl rfl rfl rfl

/-- C8: with bronze thresholds no stricter than silver, an input satisfying all four
silver numeric comparisons (as the classifier makes them) but single-end is demoted to
rank bronze with the explicit "Single-end reads" reason entry. -/
theorem single_end_demoted_to_bronze (c : Cutoff) (coverage quality length : ℚ)
    (contigs genome_size : ℤ)
    (hbc : c.bronze.coverage ≤ c.silver.coverage)
    (hbq : c.bronze.quality ≤ c.silver.quality)
    (hbl : c.bronze.length ≤ c.silver.length)
    (hbn : c.silver.contigs ≤ c.bronze.contigs)
    (hc : c.silver.coverage ≤ round2 coverage) (hq : c.silver.quality ≤ round2 quality)
    (hl : c.silver.length ≤ (pyRound (round2 length) : ℚ))
    (hn : contigs ≤ c.silver.contigs) :
    (get_rank c coverage quality length contigs genome_size false).1 = "bronze" ∧
    "Single-end reads" ∈
      (rankAndReasons c coverage quality length contigs genome_size false).2 := by
  have hb : tierPass c.bronze (round2 coverage) (round2 quality)
      (pyRound (round2 length)) contigs = true :=
    (tierPass_eq_true_iff _ _ _ _ _).mpr
      ⟨hbc.trans hc, hbq.trans hq, hbl.trans hl, hn.trans hbn⟩
  have htb : tierBranch c (round2 coverage) (round2 quality)
      (pyRound (round2 length)) contigs false =
      ("bronze", tierGapReasons c.silver (round2 coverage) (round2 quality)
        (pyRound (round2 length)) contigs ++ ["Single-end reads"]) := by
    unfold tierBranch
    simp only [Bool.and_false, Bool.false_eq_true, if_false]
    rw [hb]
    rfl
  constructor
  · unfold get_rank rankAndReasons rankAndReasonsCore
    rw [htb]
  · unfold rankAndReasons rankAndReasonsCore
    rw [htb]
    simp [List.mem_append]

/-- C6: an input failing some sub-check of each of the gold, silver and bronze tiers
is ranked exclude, and the reason list carries exactly one entry per failing bronze
sub-check (coverage, quality, read length, contig count), each judged against the
bronze thresholds. -/
theorem exclude_rank_bronze_reasons (c : Cutoff) (coverage quality length : ℚ)
    (contigs genome_size : ℤ) (is_paired : Bool)
    (hg : (tierPass c.gold (round2 coverage) (round2 quality)
      (pyRound (round2 length)) contigs && is_paired) = false)
    (hs : (tierPass c.silver (round2 coverage) (round2 quality)
      (pyRound (round2 length)) contigs && is_paired) = false)
    (hb : tierPass c.bronze (round2 coverage) (round2 quality)
      (pyRound (round2 length)) contigs = false) :
    (get_rank c coverage quality length contigs genome_size is_paired).1 = "exclude" ∧
    List.count (lowCovMsg (round2 coverage) c.bronze.coverage)
      (rankAndReasons c coverage quality length contigs genome_size is_paired).2 =
      (if round2 coverage < c.bronze.coverage then 1 else 0) ∧
    List.count (poorQualMsg (round2 quality) c.bronze.quality)
      (rankAndReasons c coverage quality length contigs genome_size is_paired).2 =
      (if round2 quality < c.bronze.quality then 1 else 0) ∧
    List.count (shortLenMsgF (pyRound (round2 length)) c.bronze.length)
      (rankAndReasons c coverage quality length contigs genome_size is_paired).2 =
      (if ((pyRound (round2 length) : ℚ)) < c.bronze.length then 1 else 0) ∧
    List.count (manyContigsMsg contigs c.bronze.contigs)
      (rankAndReasons c coverage quality length contigs genome_size is_paired).2 =
      (if contigs > c.bronze.contigs then 1 else 0) := by
  have htb : tierBranch c (round2 coverage) (round2 quality)
      (pyRound (round2 length)) contigs is_paired = ("exclude", []) := by
    unfold tierBranch
    rw [hg, hs, hb]
    rfl
  have h2 : (rankAndReasons c coverage quality length contigs genome_size is_paired).2 =
      bronzeChecks c.bronze (round2 coverage) (round2 quality)
        (pyRound (round2 length)) contigs ++ sizeReasons c genome_size := by
    unfold rankAndReasons rankAndReasonsCore
    rw [htb]
    rfl
  refine ⟨?_, ?_, ?_, ?_, ?_⟩
  · unfold get_rank rankAndReasons rankAndReasonsCore
    rw [htb]
  · rw [h2, List.count_append, count_bronzeChecks_lowCov,
      count_sizeReasons_eq_zero c genome_size _
        (fun m => ne_of_headChar 'L' 'A' (headChar_lowCovMsg _ _)
          (headChar_sizeSmallMsg _ _) (by decide))
        (fun m => ne_of_headChar 'L' 'A' (headChar_lowCovMsg _ _)
          (headChar_sizeLargeMsg _ _) (by decide)), add_zero]
  · rw [h2, List.count_append, count_bronzeChecks_poorQual,
      count_sizeReasons_eq_zero c genome_size _
        (fun m => ne_of_headChar 'P' 'A' (headChar_poorQualMsg _ _)
          (headChar_sizeSmallMsg _ _) (by decide))
        (fun m => ne_of_headChar 'P' 'A' (headChar_poorQualMsg _ _)
          (headChar_sizeLargeMsg _ _) (by decide)), add_zero]
  · rw [h2, List.count_append, count_bronzeChecks_shortLen,
      count_sizeReasons_eq_zero c genome_size _
        (fun m => ne_of_headChar 'S' 'A' (headChar_shortLenMsgF _ _)
          (headChar_sizeSmallMsg _ _) (by decide))
        (fun m => ne_of_headChar 'S' 'A' (headChar_shortLenMsgF _ _)
          (headChar_sizeLargeMsg _ _) (by decide)), add_zero]
  · rw [h2, List.count_append, count_bronzeChecks_manyContigs,
      count_sizeReasons_eq_zero c genome_size _
        (fun m => ne_of_headChar 'T' 'A' (headChar_manyContigsMsg _ _)
          (headChar_sizeSmallMsg _ _) (by decide))
        (fun m => ne_of_headChar 'T' 'A' (headChar_manyContigsMsg _ _)
          (headChar_sizeLargeMsg _ _) (by decide)), add_zero]

/-- C6 witness: 10x, Q10, 30 bp, 600 contigs fails every tier at the default cutoffs;
all four bronze sub-check entries appear exactly once. -/
theorem exclude_rank_bronze_reasons_witness :
    (get_rank defaultCutoff 10 10 30 600 0 true).1 = "exclude" ∧
    List.count (lowCovMsg (round2 10) defaultCutoff.bronze.coverage)
      (rankAndReasons defaultCutoff 10 10 30 600 0 true).2 =
      (if round2 10 < defaultCutoff.bronze.coverage then 1 else 0) ∧
    List.count (poorQualMsg (round2 10) defaultCutoff.bronze.quality)
      (rankAndReasons defaultCutoff 10 10 30 600 0 true).2 =
      (if round2 10 < defaultCutoff.bronze.quality then 1 else 0) ∧
    List.count (shortLenMsgF (pyRound (round2 30)) defaultCutoff.bronze.length)
      (rankAndReasons defaultCutoff 10 10 30 600 0 true).2 =
      (if ((pyRound (round2 30) : ℚ)) < defaultCutoff.bronze.length then 1 else 0) ∧
    List.count (manyContigsMsg 600 defaultCutoff.bronze.contigs)
      (rankAndReasons defaultCutoff 10 10 30 600 0 true).2 =
      (if (600 : ℤ) > defaultCutoff.bronze.contigs then 1 else 0) :=
  exclude_rank_bronze_reasons defaultCutoff 10 10 30 600 0 true
    (by rw [(tierPass_eq_false_iff _ _ _ _ _).mpr, Bool.false_and]
        rw [round2_eval 10 10 (by norm_num)]
        norm_num [defaultCutoff])
    (by rw [(tierPass_eq_false_iff _ _ _ _ _).mpr, Bool.false_and]
        rw [round2_eval 10 10 (by norm_num)]
        norm_num [defaultCutoff])
    (by rw [tierPass_eq_false_iff, round2_eval 10 10 (by norm_num)]
        norm_num [defaultCutoff])

/-- C9: for per-mate QC records sharing the same `qc_stats` keys, the merged
`qc_stats` holds, key by key, the exact sum of the two mates for `total_bp`,
`coverage` and `read_total`, and the arithmetic mean of the two mates for every other
key, float means being rendered to 4 decimal places. -/
theorem merge_qc_stats_sum_and_mean (r1 r2 merged st1 st2 m : List (String × QVal))
    (h1 : lookupA "qc_stats" r1 = some (QVal.dict st1))
    (h2 : lookupA "qc_stats" r2 = some (QVal.dict st2))
    (hm : mergeQcStats r1 r2 = some merged)
    (hq : lookupA "qc_stats" merged = some (QVal.dict m))
    (hnd : (st1.map Prod.fst).Nodup)
    (k : String) (v1 v2 : QVal)
    (hk1 : lookupA k st1 = some v1) (hk2 : lookupA k st2 = some v2) :
    (sumKeys.contains k = true → lookupA k m = pyAdd v1 v2) ∧
    (sumKeys.contains k = false → lookupA k m = (pyMean v1 v2).map render4) ∧
    ∀ qa qb : ℚ, v1 = QVal.float qa → v2 = QVal.float qb →
      (sumKeys.contains k = true → lookupA k m = some (QVal.float (qa + qb))) ∧
      (sumKeys.contains k = false →
        lookupA k m = some (QVal.str (fmt4 ((qa + qb) / 2)))) := by
  have hr2 : r2.isEmpty = false := by
    cases r2 with
    | nil => rw [lookupA_nil] at h2; exact absurd h2 (by simp)
    | cons a l => rfl
  unfold mergeQcStats at hm
  rw [h1, h2, hr2] at hm
  cases hpq1 : lookupA "per_base_quality" r1 with
  | none => rw [hpq1] at hm; simp at hm
  | some pbq1 =>
  cases hpq2 : lookupA "per_base_quality" r2 with
  | none => rw [hpq1, hpq2] at hm; simp at hm
  | some pbq2 =>
  cases hrl1 : lookupA "read_lengths" r1 with
  | none => rw [hpq1, hpq2, hrl1] at hm; simp at hm
  | some rl1 =>
  cases hrl2 : lookupA "read_lengths" r2 with
  | none => rw [hpq1, hpq2, hrl1, hrl2] at hm; simp at hm
  | some rl2 =>
  rw [hpq1, hpq2, hrl1, hrl2] at hm
  dsimp only at hm
  cases hloop : mergeStatsLoop false st2 st1 with
  | none => rw [hloop] at hm; simp at hm
  | some w =>
  rw [hloop] at hm
  simp only [Option.some.injEq] at hm
  subst hm
  have hmw : m = w := by
    simp only [lookupA, show (("qc_stats" : String) == "qc_stats") = true by decide,
      if_true, Option.some.injEq, QVal.dict.injEq] at hq
    exact hq.symm
  subst hmw
  have hmain := mergeStatsLoop_lookup st2 k st1 m v1 v2 hloop hnd hk1 hk2
  refine ⟨?_, ?_, ?_⟩
  · intro hc
    rw [hmain, if_pos hc]
  · intro hc
    rw [hmain, hc]
    rfl
  · intro qa qb e1 e2
    subst e1
    subst e2
    constructor
    · intro hc
      rw [hmain, if_pos hc]
      rfl
    · intro hc
      rw [hmain, hc]
      rfl

/-- C9 witness: two float-valued mates; `coverage` (a sum key) is summed exactly,
`qual_mean` is averaged and rendered to 4 decimal places. -/
theorem merge_qc_stats_sum_and_mean_witness :
    (sumKeys.contains "coverage" = true →
      lookupA "coverage"
        [("coverage", QVal.float (12 + 8)), ("qual_mean", QVal.str (fmt4 ((30 + 32) / 2)))] =
        pyAdd (QVal.float 12) (QVal.float 8)) ∧
    (sumKeys.contains "coverage" = false →
      lookupA "coverage"
        [("coverage", QVal.float (12 + 8)), ("qual_mean", QVal.str (fmt4 ((30 + 32) / 2)))] =
        (pyMean (QVal.float 12) (QVal.float 8)).map render4) ∧
    ∀ qa qb : ℚ, QVal.float 12 = QVal.float qa → QVal.float 8 = QVal.float qb →
      (sumKeys.contains "coverage" = true →
        lookupA "coverage"
          [("coverage", QVal.float (12 + 8)),
           ("qual_mean", QVal.str (fmt4 ((30 + 32) / 2)))] =
          some (QVal.float (qa + qb))) ∧
      (sumKeys.contains "coverage" = false →
        lookupA "coverage"
          [("coverage", QVal.float (12 + 8)),
           ("qual_mean", QVal.str (fmt4 ((30 + 32) / 2)))] =
          some (QVal.str (fmt4 ((qa + qb) / 2)))) :=
  merge_qc_stats_sum_and_mean
    [("per_base_quality", QVal.dict []), ("read_lengths", QVal.dict []),
     ("qc_stats", QVal.dict [("coverage", QVal.float 12), ("qual_mean", QVal.float 30)])]
    [("per_base_quality", QVal.dict []), ("read_lengths", QVal.dict []),
     ("qc_stats", QVal.dict [("coverage", QVal.float 8), ("qual_mean", QVal.float 32)])]
    [("qc_stats", QVal.dict
        [("coverage", QVal.float (12 + 8)), ("qual_mean", QVal.str (fmt4 ((30 + 32) / 2)))]),
     ("r1_per_base_quality", QVal.dict []), ("r2_per_base_quality", QVal.dict []),
     ("r1_read_lengths", QVal.dict []), ("r2_read_lengths", QVal.dict [])]
    [("coverage", QVal.float 12), ("qual_mean", QVal.float 30)]
    [("coverage", QVal.float 8), ("qual_mean", QVal.float 32)]
    [("coverage", QVal.float (12 + 8)), ("qual_mean", QVal.str (fmt4 ((30 + 32) / 2)))]
    rfl rfl rfl rfl (by simp) "coverage" (QVal.float 12) (QVal.float 8) rfl rfl

/-- C8 witness: an otherwise-silver sample (60x, Q25, 80 bp, 150 contigs) with
single-end reads at the default cutoffs. -/
theorem single_end_demoted_to_bronze_witness :
    (get_rank defaultCutoff 60 25 80 150 0 false).1 = "bronze" ∧
    "Single-end reads" ∈ (rankAndReasons defaultCutoff 60 25 80 150 0 false).2 :=
  single_end_demoted_to_bronze defaultCutoff 60 25 80 150 0
    (by norm_num [defaultCutoff]) (by norm_num [defaultCutoff])
    (by norm_num [defaultCutoff]) (by norm_num [defaultCutoff])
    (by rw [round2_eval 60 60 (by norm_num)]; norm_num [defaultCutoff])
    (by rw [round2_eval 25 25 (by norm_num)]; norm_num [defaultCutoff])
    (by rw [lenRound_eval 80 80 (by norm_num)]; norm_num [defaultCutoff])
    (by norm_num [defaultCutoff])

end Bactopia
